import Mathlib

/-!
Shallow embedding of the chess-bet escrow program
(src/solana/programs/chess_bet_escrow/src/lib.rs) and proofs about the
claims of its specification.

Modelling conventions:
* A public key (identity) is a natural number; the all-zero default key
  (Pubkey::default, the system program address) is 0.
* u64 values are naturals; checked_add / checked_mul fail exactly when the
  mathematical result reaches 2^64, mirroring the checked u64 arithmetic.
* The on-chain state relevant to one game record is an EscrowState:
  the configuration account, the (optional) game record, the lamport
  balance held by the game record account (its escrow holding, rent
  excluded), and the lamport balances of all other accounts as a function
  from key to balance.
* Each instruction handler is a function EscrowState → ... →
  Except TxError EscrowState.  Returning an error models the runtime
  aborting the whole transaction: no mutation of any account survives,
  which is exactly Anchor/Solana semantics for a failed instruction.
* Account validation performed by the runtime before the handler body runs
  (the init constraint of create_lobby, existence of the game account) is
  modelled by the accountCheck error; a failing system_program::transfer
  (source balance too small) is the sysTransfer error.
* The player1 / player2 / winner_account accounts of ResolveGame are
  unchecked AccountInfos in the source (only /// CHECK: comments, no
  constraint), so the embedding takes them as free inputs of resolve_game.
-/

namespace ChessBetEscrow

/-- Identities (public keys); the default all-zero key is 0. -/
abbrev Pubkey := Nat

/-- Pubkey::default, the all-zero key: doubles as the unset-player2
sentinel, the unset-resolver sentinel and the draw sentinel. -/
def PubkeyDefault : Pubkey := 0

/-- One more than the largest u64 value. -/
def U64_MOD : Nat := 2 ^ 64

/-- u64 checked_add on values below U64_MOD. -/
def checkedAdd (a b : Nat) : Option Nat :=
  if a + b < U64_MOD then some (a + b) else none

/-- u64 checked_mul on values below U64_MOD. -/
def checkedMul (a b : Nat) : Option Nat :=
  if a * b < U64_MOD then some (a * b) else none

/-- The Config account: deployment owner, delegated resolver, game counter. -/
structure Config where
  owner : Pubkey
  resolver : Pubkey
  game_counter : Nat
deriving Repr, DecidableEq

/-- The Game account: one per game record. -/
structure Game where
  game_id : Nat
  player1 : Pubkey
  player2 : Pubkey
  bet_lamports : Nat
  active : Bool
  winner : Pubkey
deriving Repr, DecidableEq

/-- The error enum of the program, field for field. -/
inductive EscrowError where
  | NotOwner
  | NotOwnerOrResolver
  | GameNotActive
  | LobbyHasOpponent
  | NotCreator
  | StakeTooLow
  | GameNotReady
  | InvalidWinner
  | Overflow
  | InsufficientEscrow
  | BadGameId
deriving Repr, DecidableEq

/-- Everything that can abort a transaction: a program error from the
handler body, an Anchor account-validation failure that runs before the
body (e.g. the init constraint), or a failing system-program transfer. -/
inductive TxError where
  | escrow : EscrowError → TxError
  | accountCheck : TxError
  | sysTransfer : TxError
deriving Repr, DecidableEq

/-- State of one deployment restricted to a single game record: the config
account, the game account (none before creation), the lamports custodied
by the game account (its escrow holding), and every other account balance. -/
structure EscrowState where
  config : Config
  game : Option Game
  escrow : Nat
  balances : Pubkey → Nat

/-- Add n lamports to account a. -/
def credit (b : Pubkey → Nat) (a : Pubkey) (n : Nat) : Pubkey → Nat :=
  fun x => if x = a then b x + n else b x

/-- Remove n lamports from account a (callers check sufficiency first). -/
def debit (b : Pubkey → Nat) (a : Pubkey) (n : Nat) : Pubkey → Nat :=
  fun x => if x = a then b x - n else b x

/-- The initialize handler: builds the fresh Config account
(owner = caller, resolver unset, counter 0). -/
def initConfig (owner : Pubkey) : Config :=
  { owner := owner, resolver := PubkeyDefault, game_counter := 0 }

/-- The set_resolver handler. -/
def set_resolver (s : EscrowState) (caller resolver : Pubkey) :
    Except TxError EscrowState :=
  if s.config.owner = caller then
    .ok { s with config := { s.config with resolver := resolver } }
  else .error (.escrow .NotOwner)

/-- The create_lobby handler.  The outer match models the Anchor init
constraint (the game account must not already exist); then the body:
stake check, checked counter increment, game-id check, record
initialisation, and the system-program transfer of the stake from
player1 into the game account. -/
def create_lobby (s : EscrowState) (player1 : Pubkey)
    (game_id stake_lamports : Nat) : Except TxError EscrowState :=
  match s.game with
  | some _ => .error .accountCheck
  | none =>
    if 0 < stake_lamports then
      match checkedAdd s.config.game_counter 1 with
      | none => .error (.escrow .Overflow)
      | some expected_id =>
        if game_id = expected_id then
          if stake_lamports ≤ s.balances player1 then
            .ok {
              config := { s.config with game_counter := expected_id },
              game := some {
                game_id := game_id,
                player1 := player1,
                player2 := PubkeyDefault,
                bet_lamports := stake_lamports,
                active := true,
                winner := PubkeyDefault },
              escrow := s.escrow + stake_lamports,
              balances := debit s.balances player1 stake_lamports }
          else .error .sysTransfer
        else .error (.escrow .BadGameId)
    else .error (.escrow .StakeTooLow)

/-- The join_lobby handler. -/
def join_lobby (s : EscrowState) (player2 : Pubkey) :
    Except TxError EscrowState :=
  match s.game with
  | none => .error .accountCheck
  | some game =>
    if game.active then
      if game.player2 = PubkeyDefault then
        if 0 < game.bet_lamports then
          if game.bet_lamports ≤ s.balances player2 then
            .ok { s with
              game := some { game with player2 := player2 },
              escrow := s.escrow + game.bet_lamports,
              balances := debit s.balances player2 game.bet_lamports }
          else .error .sysTransfer
        else .error (.escrow .StakeTooLow)
      else .error (.escrow .LobbyHasOpponent)
    else .error (.escrow .GameNotActive)

/-- The cancel_lobby handler.  The unchecked lamport subtraction of the
source is Nat subtraction here; the lifecycle invariant proved below
guarantees the escrow holds exactly the stake at this point. -/
def cancel_lobby (s : EscrowState) (player1 : Pubkey) :
    Except TxError EscrowState :=
  match s.game with
  | none => .error .accountCheck
  | some game =>
    if game.active then
      if game.player2 = PubkeyDefault then
        if game.player1 = player1 then
          if 0 < game.bet_lamports then
            .ok { s with
              game := some { game with active := false },
              escrow := s.escrow - game.bet_lamports,
              balances := credit s.balances player1 game.bet_lamports }
          else .error (.escrow .StakeTooLow)
        else .error (.escrow .NotCreator)
      else .error (.escrow .LobbyHasOpponent)
    else .error (.escrow .GameNotActive)

/-- The resolve_game handler.  p1_acc, p2_acc and winner_acc are the
unchecked player1 / player2 / winner_account AccountInfos the transaction
supplies; the source does not constrain them to match the record. -/
def resolve_game (s : EscrowState)
    (caller winner p1_acc p2_acc winner_acc : Pubkey) :
    Except TxError EscrowState :=
  match s.game with
  | none => .error .accountCheck
  | some game =>
    if caller = s.config.owner ∨ caller = s.config.resolver then
      if game.active then
        if game.player2 ≠ PubkeyDefault then
          match checkedMul game.bet_lamports 2 with
          | none => .error (.escrow .Overflow)
          | some total_prize =>
            if winner = PubkeyDefault then
              if 0 < game.bet_lamports then
                if total_prize ≤ s.escrow then
                  .ok { s with
                    game := some { game with
                      winner := winner,
                      active := false },
                    escrow :=
                      s.escrow - game.bet_lamports - game.bet_lamports,
                    balances :=
                      credit (credit s.balances p1_acc game.bet_lamports)
                        p2_acc game.bet_lamports }
                else .error (.escrow .InsufficientEscrow)
              else .error (.escrow .StakeTooLow)
            else if winner = game.player1 ∨ winner = game.player2 then
              if total_prize ≤ s.escrow then
                .ok { s with
                  game := some { game with
                    winner := winner,
                    active := false },
                  escrow := s.escrow - total_prize,
                  balances := credit s.balances winner_acc total_prize }
              else .error (.escrow .InsufficientEscrow)
            else .error (.escrow .InvalidWinner)
        else .error (.escrow .GameNotReady)
      else .error (.escrow .GameNotActive)
    else .error (.escrow .NotOwnerOrResolver)

/-- One submitted instruction together with its arguments. -/
inductive Op where
  | create (player1 : Pubkey) (game_id stake : Nat)
  | join (player2 : Pubkey)
  | cancel (player1 : Pubkey)
  | resolve (caller winner p1_acc p2_acc winner_acc : Pubkey)
  | setResolver (caller resolver : Pubkey)

/-- Dispatch an instruction to its handler. -/
def applyOp (s : EscrowState) : Op → Except TxError EscrowState
  | .create p gid st => create_lobby s p gid st
  | .join p => join_lobby s p
  | .cancel p => cancel_lobby s p
  | .resolve c w a1 a2 aw => resolve_game s c w a1 a2 aw
  | .setResolver c r => set_resolver s c r

/-- The signing account of an instruction is never the default key: the
all-zero key is the system program address and has no private key, so the
runtime signature check rejects any transaction claiming it as signer. -/
def signerOk : Op → Prop
  | .create p _ _ => p ≠ PubkeyDefault
  | .join p => p ≠ PubkeyDefault
  | .cancel p => p ≠ PubkeyDefault
  | .resolve c _ _ _ _ => c ≠ PubkeyDefault
  | .setResolver c _ => c ≠ PubkeyDefault

/-- One successful, properly signed instruction. -/
def stepOk (s t : EscrowState) : Prop :=
  ∃ o : Op, signerOk o ∧ applyOp s o = .ok t

/-- States reachable from s0 by successful instructions. -/
inductive Reachable (s0 : EscrowState) : EscrowState → Prop
  | refl : Reachable s0 s0
  | tail {s t : EscrowState} : Reachable s0 s → stepOk s t → Reachable s0 t

/-- The escrow-holding balance table of the lifecycle: 0 with no record,
the stake while Open, twice the stake while Ready, 0 once terminal. -/
def EscrowInv (s : EscrowState) : Prop :=
  match s.game with
  | none => s.escrow = 0
  | some g =>
      (g.active = true → g.player2 = PubkeyDefault →
        s.escrow = g.bet_lamports) ∧
      (g.active = true → g.player2 ≠ PubkeyDefault →
        s.escrow = g.bet_lamports * 2) ∧
      (g.active = false → s.escrow = 0)

/-- Escrow balance of the result of a call, when it succeeded. -/
def resultEscrow (r : Except TxError EscrowState) : Option Nat :=
  match r with
  | .ok s => some s.escrow
  | .error _ => none

/-- Balance of account a after a call, when it succeeded. -/
def resultBalance (r : Except TxError EscrowState) (a : Pubkey) : Option Nat :=
  match r with
  | .ok s => some (s.balances a)
  | .error _ => none

/-- The error a call failed with, if it failed. -/
def resultError (r : Except TxError EscrowState) : Option TxError :=
  match r with
  | .ok _ => none
  | .error e => some e

/-- The game record after a call, when it succeeded. -/
def resultGame (r : Except TxError EscrowState) : Option (Option Game) :=
  match r with
  | .ok s => some s.game
  | .error _ => none

/-- The game counter after a call, when it succeeded. -/
def resultCounter (r : Except TxError EscrowState) : Option Nat :=
  match r with
  | .ok s => some s.config.game_counter
  | .error _ => none

/-- Characterisation of a successful create_lobby call. -/
theorem create_lobby_ok_iff {s s' : EscrowState} {p : Pubkey} {gid st : Nat} :
    create_lobby s p gid st = .ok s' ↔
      s.game = none ∧ 0 < st ∧ s.config.game_counter + 1 < U64_MOD ∧
      gid = s.config.game_counter + 1 ∧ st ≤ s.balances p ∧
      s' = {
        config := { s.config with
          game_counter := s.config.game_counter + 1 },
        game := some {
          game_id := gid,
          player1 := p,
          player2 := PubkeyDefault,
          bet_lamports := st,
          active := true,
          winner := PubkeyDefault },
        escrow := s.escrow + st,
        balances := debit s.balances p st } := by
  unfold create_lobby checkedAdd
  cases hg : s.game with
  | some g => simp [hg]
  | none =>
    simp only [hg]
    split_ifs <;> simp_all [@eq_comm _ s'] <;>
      split_ifs <;> simp_all

/-- Characterisation of a successful join_lobby call. -/
theorem join_lobby_ok_iff {s s' : EscrowState} {g : Game} {p : Pubkey}
    (hg : s.game = some g) :
    join_lobby s p = .ok s' ↔
      g.active = true ∧ g.player2 = PubkeyDefault ∧ 0 < g.bet_lamports ∧
      g.bet_lamports ≤ s.balances p ∧
      s' = { s with
        game := some { g with player2 := p },
        escrow := s.escrow + g.bet_lamports,
        balances := debit s.balances p g.bet_lamports } := by
  unfold join_lobby
  simp only [hg]
  split_ifs <;> simp_all [@eq_comm _ s']

/-- Characterisation of a successful cancel_lobby call. -/
theorem cancel_lobby_ok_iff {s s' : EscrowState} {g : Game} {p : Pubkey}
    (hg : s.game = some g) :
    cancel_lobby s p = .ok s' ↔
      g.active = true ∧ g.player2 = PubkeyDefault ∧ g.player1 = p ∧
      0 < g.bet_lamports ∧
      s' = { s with
        game := some { g with active := false },
        escrow := s.escrow - g.bet_lamports,
        balances := credit s.balances p g.bet_lamports } := by
  unfold cancel_lobby
  simp only [hg]
  split_ifs <;> simp_all [@eq_comm _ s']

/-- Characterisation of a successful set_resolver call. -/
theorem set_resolver_ok_iff {s s' : EscrowState} {c r : Pubkey} :
    set_resolver s c r = .ok s' ↔
      s.config.owner = c ∧
      s' = { s with config := { s.config with resolver := r } } := by
  unfold set_resolver
  split_ifs <;> simp_all [@eq_comm _ s']

/-- Characterisation of a successful resolve_game call: either the draw
payout or the winner payout. -/
theorem resolve_game_ok_iff {s s' : EscrowState} {g : Game}
    {c w a1 a2 aw : Pubkey} (hg : s.game = some g) :
    resolve_game s c w a1 a2 aw = .ok s' ↔
      (c = s.config.owner ∨ c = s.config.resolver) ∧ g.active = true ∧
      g.player2 ≠ PubkeyDefault ∧ g.bet_lamports * 2 < U64_MOD ∧
      ((w = PubkeyDefault ∧ 0 < g.bet_lamports ∧
          g.bet_lamports * 2 ≤ s.escrow ∧
          s' = { s with
            game := some { g with winner := w, active := false },
            escrow := s.escrow - g.bet_lamports - g.bet_lamports,
            balances := credit (credit s.balances a1 g.bet_lamports) a2
              g.bet_lamports }) ∨
        (w ≠ PubkeyDefault ∧ (w = g.player1 ∨ w = g.player2) ∧
          g.bet_lamports * 2 ≤ s.escrow ∧
          s' = { s with
            game := some { g with winner := w, active := false },
            escrow := s.escrow - g.bet_lamports * 2,
            balances := credit s.balances aw (g.bet_lamports * 2) })) := by
  unfold resolve_game checkedMul
  simp only [hg]
  split_ifs <;> simp_all [@eq_comm _ s'] <;>
    split_ifs <;> simp_all

/-- Stake of the current game record, 0 if there is none. -/
def betOf (s : EscrowState) : Nat :=
  match s.game with
  | none => 0
  | some g => g.bet_lamports

/-- Every successful, properly signed instruction preserves the
escrow-balance table of the lifecycle. -/
theorem stepOk_preserves_inv {s t : EscrowState} (hinv : EscrowInv s)
    (hstep : stepOk s t) : EscrowInv t := by
  obtain ⟨o, hsig, hok⟩ := hstep
  cases o with
  | create p gid st =>
    simp only [applyOp] at hok
    rcases create_lobby_ok_iff.mp hok with ⟨hg, h1, h2, h3, h4, rfl⟩
    unfold EscrowInv at hinv ⊢
    rw [hg] at hinv
    simp [hinv, PubkeyDefault]
  | join p =>
    simp only [applyOp] at hok
    simp only [signerOk] at hsig
    cases hgame : s.game with
    | none => simp [join_lobby, hgame] at hok
    | some g =>
      rcases (join_lobby_ok_iff hgame).mp hok with ⟨ha, hp2, hb, hbal, rfl⟩
      unfold EscrowInv at hinv ⊢
      rw [hgame] at hinv
      obtain ⟨h1, _, _⟩ := hinv
      have hesc : s.escrow = g.bet_lamports := h1 ha hp2
      simp [ha, hsig, hesc]
      omega
  | cancel p =>
    simp only [applyOp] at hok
    cases hgame : s.game with
    | none => simp [cancel_lobby, hgame] at hok
    | some g =>
      rcases (cancel_lobby_ok_iff hgame).mp hok with ⟨ha, hp2, hp1, hb, rfl⟩
      unfold EscrowInv at hinv ⊢
      rw [hgame] at hinv
      obtain ⟨h1, _, _⟩ := hinv
      have hesc : s.escrow = g.bet_lamports := h1 ha hp2
      simp [hesc]
  | resolve c w a1 a2 aw =>
    simp only [applyOp] at hok
    cases hgame : s.game with
    | none => simp [resolve_game, hgame] at hok
    | some g =>
      rcases (resolve_game_ok_iff hgame).mp hok with
        ⟨hauth, ha, hp2, hmul, hcase⟩
      unfold EscrowInv at hinv ⊢
      rw [hgame] at hinv
      obtain ⟨_, h2, _⟩ := hinv
      have hesc : s.escrow = g.bet_lamports * 2 := h2 ha hp2
      rcases hcase with ⟨hw, hb, hle, rfl⟩ | ⟨hw, hwin, hle, rfl⟩
      · simp [hesc]
        omega
      · simp [hesc]
  | setResolver c r =>
    simp only [applyOp] at hok
    rcases set_resolver_ok_iff.mp hok with ⟨hown, rfl⟩
    unfold EscrowInv at hinv ⊢
    cases hgame : s.game with
    | none => rw [hgame] at hinv; simpa [hgame] using hinv
    | some g => rw [hgame] at hinv; simpa [hgame] using hinv

/-- The escrow-balance table holds in every state reachable from a
pre-creation state. -/
theorem reachable_inv {s0 s : EscrowState} (h0 : EscrowInv s0)
    (hr : Reachable s0 s) : EscrowInv s := by
  induction hr with
  | refl => exact h0
  | tail _ hstep ih => exact stepOk_preserves_inv ih hstep

/-- A concrete Ready state: owner 1, resolver unset, players 2 and 3,
stake 5 per player, both stakes in escrow. -/
def exReady : EscrowState :=
  { config := { owner := 1, resolver := PubkeyDefault, game_counter := 7 },
    game := some {
      game_id := 7,
      player1 := 2,
      player2 := 3,
      bet_lamports := 5,
      active := true,
      winner := PubkeyDefault },
    escrow := 10,
    balances := fun _ => 0 }

/-- A concrete Open state: player1 = 2 staked 5, nobody joined yet. -/
def exOpen : EscrowState :=
  { config := { owner := 1, resolver := PubkeyDefault, game_counter := 1 },
    game := some {
      game_id := 1,
      player1 := 2,
      player2 := PubkeyDefault,
      bet_lamports := 5,
      active := true,
      winner := PubkeyDefault },
    escrow := 5,
    balances := fun _ => 0 }

/-- A concrete terminal (Resolved) state: player 2 won and was paid out. -/
def exTerm : EscrowState :=
  { config := { owner := 1, resolver := PubkeyDefault, game_counter := 7 },
    game := some {
      game_id := 7,
      player1 := 2,
      player2 := 3,
      bet_lamports := 5,
      active := false,
      winner := 2 },
    escrow := 0,
    balances := fun _ => 0 }

/-- A concrete pre-creation state: no game record, funded player wallets. -/
def exNone : EscrowState :=
  { config := { owner := 1, resolver := PubkeyDefault, game_counter := 0 },
    game := none,
    escrow := 0,
    balances := fun _ => 100 }

/-- A concrete state whose game counter sits at the largest u64 value. -/
def exMaxCounter : EscrowState :=
  { config := { owner := 1, resolver := PubkeyDefault,
                game_counter := U64_MOD - 1 },
    game := none,
    escrow := 0,
    balances := fun _ => 100 }

/-- A concrete Ready state whose stake is so large that doubling it
overflows u64. -/
def exBigStake : EscrowState :=
  { config := { owner := 1, resolver := PubkeyDefault, game_counter := 7 },
    game := some {
      game_id := 7,
      player1 := 2,
      player2 := 3,
      bet_lamports := 2 ^ 63,
      active := true,
      winner := PubkeyDefault },
    escrow := 2 ^ 64,
    balances := fun _ => 0 }

/-- The state create_lobby produces from exNone with game_id 1, stake 5. -/
def exOpen1 : EscrowState :=
  { config := { owner := 1, resolver := PubkeyDefault, game_counter := 1 },
    game := some {
      game_id := 1,
      player1 := 2,
      player2 := PubkeyDefault,
      bet_lamports := 5,
      active := true,
      winner := PubkeyDefault },
    escrow := 5,
    balances := debit (fun _ => 100) 2 5 }

/-- Claim C4: every successful create_lobby call increases the
configuration game counter by exactly 1 (so it never decreases and never
skips a value) and stamps the new game record with the post-increment
counter value as its game_id. -/
theorem create_lobby_increments_counter {s s' : EscrowState} {p : Pubkey}
    {gid st : Nat} (hok : create_lobby s p gid st = .ok s') :
    s'.config.game_counter = s.config.game_counter + 1 ∧
    ∃ g : Game, s'.game = some g ∧ g.game_id = s'.config.game_counter := by
  rcases create_lobby_ok_iff.mp hok with ⟨hg, h1, h2, h3, h4, rfl⟩
  subst h3
  exact ⟨rfl, _, rfl, rfl⟩

/-- Witness for create_lobby_increments_counter on a concrete call. -/
theorem create_lobby_increments_counter_witness :
    exOpen1.config.game_counter = exNone.config.game_counter + 1 ∧
    ∃ g : Game, exOpen1.game = some g ∧
      g.game_id = exOpen1.config.game_counter :=
  @create_lobby_increments_counter exNone exOpen1 2 1 5 rfl

/-- Claim C6 as amended: a create_lobby call with positive stake and a
game_id different from game_counter + 1 fails with BadGameId, provided
the counter increment itself does not overflow u64.  The failing call
returns an error, so the counter is unchanged and no record is created. -/
theorem create_lobby_bad_game_id_fails {s : EscrowState} {p : Pubkey}
    {gid st : Nat} (hg : s.game = none) (hst : 0 < st)
    (hlt : s.config.game_counter + 1 < U64_MOD)
    (hid : gid ≠ s.config.game_counter + 1) :
    create_lobby s p gid st = .error (.escrow .BadGameId) := by
  unfold create_lobby checkedAdd
  simp [hg, hst, hlt, hid]

/-- Witness for create_lobby_bad_game_id_fails on a concrete call. -/
theorem create_lobby_bad_game_id_fails_witness :
    create_lobby exNone 2 2 5 = .error (.escrow .BadGameId) :=
  create_lobby_bad_game_id_fails rfl (by decide) (by decide) (by decide)

/-- Counterexample to claim C6 as stated: with the game counter at the
largest u64 value, a call whose game_id (5) differs from
game_counter + 1 fails with Overflow, not BadGameId. -/
theorem create_lobby_bad_game_id_at_max_refuted :
    0 < 1 ∧ (5 : Nat) ≠ exMaxCounter.config.game_counter + 1 ∧
    resultError (create_lobby exMaxCounter 2 5 1) =
      some (.escrow .Overflow) ∧
    resultError (create_lobby exMaxCounter 2 5 1) ≠
      some (.escrow .BadGameId) := by decide

/-- Claim C9: with the game counter at the largest u64 value, create_lobby
fails with Overflow regardless of the requested game_id (the checked
increment fails before the game_id comparison).  The failing call returns
an error, so the counter is unchanged and no record is created. -/
theorem create_lobby_counter_max_overflow {s : EscrowState} {p : Pubkey}
    {st : Nat} (hg : s.game = none) (hst : 0 < st)
    (hmax : s.config.game_counter = U64_MOD - 1) :
    ∀ gid, create_lobby s p gid st = .error (.escrow .Overflow) := by
  intro gid
  have h1 : U64_MOD - 1 + 1 = U64_MOD :=
    Nat.sub_add_cancel (by norm_num [U64_MOD])
  unfold create_lobby checkedAdd
  simp [hg, hst, hmax, h1]

/-- Witness for create_lobby_counter_max_overflow on a concrete call. -/
theorem create_lobby_counter_max_overflow_witness :
    create_lobby exMaxCounter 2 0 1 = .error (.escrow .Overflow) :=
  create_lobby_counter_max_overflow rfl (by decide) rfl 0

/-- Claim C5 as amended: on a Ready game with an authorized caller and a
winner that is neither participant nor the draw sentinel, resolve_game
fails with InvalidWinner, provided doubling the stake does not overflow
u64 (a stake of at least 2^63 fails Overflow first).  The failing call
returns an error, so no balance and no record field is mutated. -/
theorem resolve_invalid_winner_fails {s : EscrowState} {g : Game}
    {c w a1 a2 aw : Pubkey} (hg : s.game = some g)
    (hauth : c = s.config.owner ∨ c = s.config.resolver)
    (ha : g.active = true) (hp2 : g.player2 ≠ PubkeyDefault)
    (hmul : g.bet_lamports * 2 < U64_MOD) (hw0 : w ≠ PubkeyDefault)
    (hw1 : w ≠ g.player1) (hw2 : w ≠ g.player2) :
    resolve_game s c w a1 a2 aw = .error (.escrow .InvalidWinner) := by
  unfold resolve_game checkedMul
  simp [hg, hauth, ha, hp2, hmul, hw0, hw1, hw2]

/-- Witness for resolve_invalid_winner_fails on a concrete call. -/
theorem resolve_invalid_winner_fails_witness :
    resolve_game exReady 1 9 2 3 9 = .error (.escrow .InvalidWinner) :=
  @resolve_invalid_winner_fails exReady
    { game_id := 7, player1 := 2, player2 := 3, bet_lamports := 5,
      active := true, winner := PubkeyDefault }
    1 9 2 3 9
    rfl (Or.inl rfl) rfl (by decide) (by decide) (by decide) (by decide)
    (by decide)

/-- Counterexample to claim C5 as stated: on a Ready game whose stake is
2^63 the same call fails with Overflow, not InvalidWinner, because the
checked doubling runs before the winner cases. -/
theorem resolve_invalid_winner_overflow_refuted :
    exBigStake.game = some
      { game_id := 7, player1 := 2, player2 := 3, bet_lamports := 2 ^ 63,
        active := true, winner := PubkeyDefault } ∧
    (1 : Pubkey) = exBigStake.config.owner ∧
    resultError (resolve_game exBigStake 1 9 2 3 9) =
      some (.escrow .Overflow) ∧
    resultError (resolve_game exBigStake 1 9 2 3 9) ≠
      some (.escrow .InvalidWinner) := by decide

/-- Claim C10: with the resolver left unset (stored as the default key), a
resolve_game call whose caller is the default key passes the
owner-or-resolver check, because it compares equal to the stored resolver;
the call can therefore never fail with NotOwnerOrResolver. -/
theorem unset_resolver_default_caller_authorized {s : EscrowState}
    {w a1 a2 aw : Pubkey} (hres : s.config.resolver = PubkeyDefault)
    (_hne : PubkeyDefault ≠ s.config.owner) :
    resolve_game s PubkeyDefault w a1 a2 aw ≠
      .error (.escrow .NotOwnerOrResolver) := by
  have hauth : PubkeyDefault = s.config.owner ∨
      PubkeyDefault = s.config.resolver := Or.inr hres.symm
  unfold resolve_game checkedMul
  cases hgame : s.game with
  | none => simp
  | some g =>
    simp only [if_pos hauth]
    split_ifs <;> simp_all <;> split_ifs <;> simp_all

/-- Witness for unset_resolver_default_caller_authorized on a concrete
call. -/
theorem unset_resolver_default_caller_authorized_witness :
    resolve_game exReady PubkeyDefault 2 2 3 2 ≠
      .error (.escrow .NotOwnerOrResolver) :=
  unset_resolver_default_caller_authorized rfl (by decide)

/-- The game record held by exReady. -/
def exReadyGame : Game :=
  { game_id := 7, player1 := 2, player2 := 3, bet_lamports := 5,
    active := true, winner := PubkeyDefault }

/-- The state resolve_game produces from exReady when player1 (key 2) is
named winner but the supplied winner_account is key 4. -/
def exWinPaid : EscrowState :=
  { config := { owner := 1, resolver := PubkeyDefault, game_counter := 7 },
    game := some {
      game_id := 7,
      player1 := 2,
      player2 := 3,
      bet_lamports := 5,
      active := false,
      winner := 2 },
    escrow := 0,
    balances := credit (fun _ => 0) 4 10 }

/-- The state resolve_game produces from exReady on a draw when the
transaction supplies account 7 in the player1 slot and the recorded
player2 (key 3) in the player2 slot. -/
def exDrawPaid : EscrowState :=
  { config := { owner := 1, resolver := PubkeyDefault, game_counter := 7 },
    game := some {
      game_id := 7,
      player1 := 2,
      player2 := 3,
      bet_lamports := 5,
      active := false,
      winner := PubkeyDefault },
    escrow := 0,
    balances := credit (credit (fun _ => 0) 7 5) 3 5 }

/-- Claim C1 as amended: a successful resolve_game naming a non-sentinel
participant as winner debits the full doubled stake from the escrow
holding and credits all of it to the supplied winner_account, and to no
other account; when the transaction supplies winner_account = winner (as
the documented account contract requires), the credited account is the
named winner. -/
theorem resolve_winner_pays_supplied_account {s s' : EscrowState} {g : Game}
    {c w a1 a2 aw : Pubkey} (hg : s.game = some g)
    (hw0 : w ≠ PubkeyDefault) (_hw : w = g.player1 ∨ w = g.player2)
    (hok : resolve_game s c w a1 a2 aw = .ok s') :
    g.bet_lamports * 2 ≤ s.escrow ∧
    s'.escrow = s.escrow - g.bet_lamports * 2 ∧
    s'.balances aw = s.balances aw + g.bet_lamports * 2 ∧
    ∀ a, a ≠ aw → s'.balances a = s.balances a := by
  rcases (resolve_game_ok_iff hg).mp hok with ⟨hauth, ha, hp2, hmul, hcase⟩
  rcases hcase with ⟨hwd, _⟩ | ⟨_, _, hle, rfl⟩
  · exact absurd hwd hw0
  · refine ⟨hle, rfl, ?_, ?_⟩
    · simp [credit]
    · intro a hane
      simp [credit, hane]

/-- Witness for resolve_winner_pays_supplied_account on a concrete call
whose supplied winner_account (key 4) differs from the named winner. -/
theorem resolve_winner_pays_supplied_account_witness :
    exWinPaid.balances 4 = exReady.balances 4 + 5 * 2 :=
  (@resolve_winner_pays_supplied_account exReady exWinPaid exReadyGame
    1 2 2 3 4 rfl (by decide) (Or.inl rfl) rfl).2.2.1

/-- Counterexample to claim C1 as stated: naming player1 (key 2) as winner
but supplying the unchecked winner_account 4 succeeds and credits the
doubled stake to account 4, not to the named winner. -/
theorem resolve_winner_named_winner_refuted :
    resultEscrow (resolve_game exReady 1 2 2 3 4) = some 0 ∧
    resultBalance (resolve_game exReady 1 2 2 3 4) 2 ≠
      some (exReady.balances 2 + 5 * 2) ∧
    resultBalance (resolve_game exReady 1 2 2 3 4) 2 = some 0 ∧
    resultBalance (resolve_game exReady 1 2 2 3 4) 4 = some 10 := by decide

/-- Claim C2 as amended: a resolve_game draw on a Ready game with an
authorized caller first checks that the escrow holds at least the doubled
stake (failing InsufficientEscrow otherwise) and, on success, debits the
stake twice and credits one stake to each supplied player account; when
the transaction supplies the recorded players (as the documented account
contract requires), each recorded player receives exactly one stake. -/
theorem resolve_draw_pays_supplied_accounts {s : EscrowState} {g : Game}
    {c a1 a2 aw : Pubkey} (hg : s.game = some g)
    (hauth : c = s.config.owner ∨ c = s.config.resolver)
    (ha : g.active = true) (hp2 : g.player2 ≠ PubkeyDefault)
    (hb : 0 < g.bet_lamports) (hmul : g.bet_lamports * 2 < U64_MOD) :
    (s.escrow < g.bet_lamports * 2 →
      resolve_game s c PubkeyDefault a1 a2 aw =
        .error (.escrow .InsufficientEscrow)) ∧
    ∀ s', resolve_game s c PubkeyDefault a1 a2 aw = .ok s' →
      s'.escrow = s.escrow - g.bet_lamports - g.bet_lamports ∧
      s'.balances =
        credit (credit s.balances a1 g.bet_lamports) a2 g.bet_lamports ∧
      (a1 ≠ a2 →
        s'.balances a1 = s.balances a1 + g.bet_lamports ∧
        s'.balances a2 = s.balances a2 + g.bet_lamports) ∧
      ∀ a, a ≠ a1 → a ≠ a2 → s'.balances a = s.balances a := by
  constructor
  · intro hlt
    unfold resolve_game checkedMul
    simp [hg, hauth, ha, hp2, hb, hmul, Nat.not_le.mpr hlt]
  · intro s' hok
    rcases (resolve_game_ok_iff hg).mp hok with ⟨_, _, _, _, hcase⟩
    rcases hcase with ⟨_, _, hle, rfl⟩ | ⟨hwne, _, _, _⟩
    · refine ⟨rfl, rfl, ?_, ?_⟩
      · intro hne
        constructor
        · simp [credit, hne]
        · simp [credit, Ne.symm hne]
      · intro a h1 h2
        simp [credit, h1, h2]
    · exact absurd rfl hwne

/-- Witness for resolve_draw_pays_supplied_accounts on a concrete call
whose supplied player1 slot (account 7) differs from the recorded
player1. -/
theorem resolve_draw_pays_supplied_accounts_witness :
    exDrawPaid.balances 7 = exReady.balances 7 + 5 :=
  (((@resolve_draw_pays_supplied_accounts exReady exReadyGame 1 7 3 0
      rfl (Or.inl rfl) rfl (by decide) (by decide) (by decide)).2
    exDrawPaid rfl).2.2.1 (by decide)).1

/-- Counterexample to claim C2 as stated: a draw resolution supplying
account 7 in the player1 slot succeeds and credits the stake to account
7, while the recorded player1 (key 2) receives nothing. -/
theorem resolve_draw_recorded_players_refuted :
    resultEscrow (resolve_game exReady 1 0 7 3 4) = some 0 ∧
    resultBalance (resolve_game exReady 1 0 7 3 4) 2 ≠
      some (exReady.balances 2 + 5) ∧
    resultBalance (resolve_game exReady 1 0 7 3 4) 2 = some 0 ∧
    resultBalance (resolve_game exReady 1 0 7 3 4) 7 = some 5 := by decide

/-- Claim C7 as amended: once a game record is terminal (active = false),
join_lobby, cancel_lobby and resolve_game all fail, so no field and no
balance of the record is ever mutated again; join and cancel fail with
GameNotActive, and so does resolve for an authorized caller, while an
unauthorized caller fails earlier with NotOwnerOrResolver. -/
theorem terminal_record_frozen {s : EscrowState} {g : Game}
    (hg : s.game = some g) (hterm : g.active = false) :
    (∀ p, join_lobby s p = .error (.escrow .GameNotActive)) ∧
    (∀ p, cancel_lobby s p = .error (.escrow .GameNotActive)) ∧
    (∀ c w a1 a2 aw, (c = s.config.owner ∨ c = s.config.resolver) →
      resolve_game s c w a1 a2 aw = .error (.escrow .GameNotActive)) ∧
    (∀ c w a1 a2 aw, ¬(c = s.config.owner ∨ c = s.config.resolver) →
      resolve_game s c w a1 a2 aw =
        .error (.escrow .NotOwnerOrResolver)) := by
  refine ⟨?_, ?_, ?_, ?_⟩
  · intro p
    unfold join_lobby
    simp [hg, hterm]
  · intro p
    unfold cancel_lobby
    simp [hg, hterm]
  · intro c w a1 a2 aw hauth
    unfold resolve_game
    simp [hg, hterm, hauth]
  · intro c w a1 a2 aw hauth
    unfold resolve_game
    simp [hg, hauth]

/-- Witness for terminal_record_frozen on a concrete terminal record. -/
theorem terminal_record_frozen_witness :
    join_lobby exTerm 4 = .error (.escrow .GameNotActive) :=
  (@terminal_record_frozen exTerm
    { game_id := 7, player1 := 2, player2 := 3, bet_lamports := 5,
      active := false, winner := 2 }
    rfl rfl).1 4

/-- Counterexample to claim C7 as stated: on a terminal record, a
resolve_game by an unauthorized caller (key 5) fails with
NotOwnerOrResolver, not with GameNotActive. -/
theorem terminal_error_code_refuted :
    exTerm.game = some
      { game_id := 7, player1 := 2, player2 := 3, bet_lamports := 5,
        active := false, winner := 2 } ∧
    resultError (resolve_game exTerm 5 2 2 3 2) =
      some (.escrow .NotOwnerOrResolver) ∧
    resultError (resolve_game exTerm 5 2 2 3 2) ≠
      some (.escrow .GameNotActive) := by decide

/-- Claim C8 as amended: once player2 is set on a record, every further
join_lobby fails (with LobbyHasOpponent while the record is still active,
with GameNotActive once it is terminal) and every cancel_lobby fails
(with the same two error codes respectively). -/
theorem joined_lobby_join_cancel_fail {s : EscrowState} {g : Game}
    (hg : s.game = some g) (hp2 : g.player2 ≠ PubkeyDefault) :
    (g.active = true →
      ∀ p, join_lobby s p = .error (.escrow .LobbyHasOpponent)) ∧
    (g.active = false →
      ∀ p, join_lobby s p = .error (.escrow .GameNotActive)) ∧
    (g.active = true →
      ∀ p, cancel_lobby s p = .error (.escrow .LobbyHasOpponent)) ∧
    (g.active = false →
      ∀ p, cancel_lobby s p = .error (.escrow .GameNotActive)) := by
  refine ⟨?_, ?_, ?_, ?_⟩ <;> intro hact p
  · unfold join_lobby
    simp [hg, hact, hp2]
  · unfold join_lobby
    simp [hg, hact]
  · unfold cancel_lobby
    simp [hg, hact, hp2]
  · unfold cancel_lobby
    simp [hg, hact]

/-- Witness for joined_lobby_join_cancel_fail on a concrete Ready
record. -/
theorem joined_lobby_join_cancel_fail_witness :
    join_lobby exReady 4 = .error (.escrow .LobbyHasOpponent) :=
  (@joined_lobby_join_cancel_fail exReady exReadyGame rfl (by decide)).1
    rfl 4

/-- Counterexample to claim C8 as stated: on a record whose player2 is set
but which is already terminal, a further join_lobby fails with
GameNotActive, not with LobbyHasOpponent. -/
theorem joined_lobby_error_code_refuted :
    exTerm.game = some
      { game_id := 7, player1 := 2, player2 := 3, bet_lamports := 5,
        active := false, winner := 2 } ∧
    resultError (join_lobby exTerm 4) = some (.escrow .GameNotActive) ∧
    resultError (join_lobby exTerm 4) ≠
      some (.escrow .LobbyHasOpponent) := by decide

/-- Claim C3: across any lifecycle of one game record started from a
pre-creation state (no record, empty escrow holding), the escrow holding
always matches the balance table (0 with no record, the stake while Open,
twice the stake while Ready, 0 once terminal); a successful cancel leaves
it at 0 with the stake restored to player1 and no other account changed;
and a successful resolve leaves it at 0 with the doubled stake fully
distributed: one stake credited to each supplied player account on a
draw, the doubled stake credited to the supplied winner account
otherwise. -/
theorem escrow_lifecycle_conservation {s0 s : EscrowState}
    (h0g : s0.game = none) (h0e : s0.escrow = 0) (hr : Reachable s0 s) :
    EscrowInv s ∧
    (∀ p s', cancel_lobby s p = .ok s' →
      s'.escrow = 0 ∧ s'.balances p = s.balances p + betOf s ∧
      ∀ a, a ≠ p → s'.balances a = s.balances a) ∧
    (∀ c w a1 a2 aw s', resolve_game s c w a1 a2 aw = .ok s' →
      s'.escrow = 0 ∧
      ((w = PubkeyDefault ∧
          s'.balances =
            credit (credit s.balances a1 (betOf s)) a2 (betOf s)) ∨
        (w ≠ PubkeyDefault ∧
          s'.balances = credit s.balances aw (betOf s * 2)))) := by
  have hinv0 : EscrowInv s0 := by
    unfold EscrowInv
    rw [h0g]
    exact h0e
  have hinv : EscrowInv s := reachable_inv hinv0 hr
  refine ⟨hinv, ?_, ?_⟩
  · intro p s' hok
    cases hgame : s.game with
    | none => simp [cancel_lobby, hgame] at hok
    | some g =>
      rcases (cancel_lobby_ok_iff hgame).mp hok with ⟨ha, hp2, hp1, hb, rfl⟩
      unfold EscrowInv at hinv
      rw [hgame] at hinv
      have hesc : s.escrow = g.bet_lamports := hinv.1 ha hp2
      simp only [betOf, hgame]
      refine ⟨by simp [hesc], by simp [credit], ?_⟩
      intro a hane
      simp [credit, hane]
  · intro c w a1 a2 aw s' hok
    cases hgame : s.game with
    | none => simp [resolve_game, hgame] at hok
    | some g =>
      rcases (resolve_game_ok_iff hgame).mp hok with
        ⟨hauth, ha, hp2, hmul, hcase⟩
      unfold EscrowInv at hinv
      rw [hgame] at hinv
      have hesc : s.escrow = g.bet_lamports * 2 := hinv.2.1 ha hp2
      simp only [betOf, hgame]
      rcases hcase with ⟨hw, hb, hle, rfl⟩ | ⟨hw, hwin, hle, rfl⟩
      · exact ⟨by simp [hesc]; omega, Or.inl ⟨hw, rfl⟩⟩
      · exact ⟨by simp [hesc], Or.inr ⟨hw, rfl⟩⟩

/-- Witness for escrow_lifecycle_conservation at a concrete pre-creation
state. -/
theorem escrow_lifecycle_conservation_witness : EscrowInv exNone :=
  (@escrow_lifecycle_conservation exNone exNone
    rfl rfl Reachable.refl).1

end ChessBetEscrow
